import Mathlib

/-!
Shallow embedding of the user-service backend's domain layer: the identity
value objects (`Email`, `Username`, `Password`), the `User` aggregate with its
state-transition methods, and the use cases (`CreateUser`, `LoginUser`,
`GetUser`, `UpdateUser`, `DeleteUser`, `ListUsers`, `SearchUsers`,
`LinkSocialAccount`).

Modelling conventions:
* TypeScript classes throwing `Error(msg)` become functions into
  `Except String α`; the thrown message is the `.error` payload.
* The persistence port (`UserRepository`) is passed in as explicit function
  arguments (`findById`, `findByEmail`, `exists`, ...); a use case's `.ok`
  value carries the aggregate it hands to `repository.update`/`create`, so an
  `.error` result means no write was performed.
* `new Date()` timestamps become an explicit `now : Nat` argument; `uuidv4()`
  becomes an explicit fresh-identifier argument.
* JavaScript string falsiness (`!s`), `trim`, `toLowerCase` and the `\s`
  character class are modelled explicitly below.
-/

namespace UserService

/-! ### JavaScript string primitives -/

/-- Code points the JavaScript `\s` class and `String.prototype.trim` treat as
whitespace. -/
def jsWhitespaceCodes : List Nat :=
  [0x9, 0xA, 0xB, 0xC, 0xD, 0x20, 0xA0, 0x1680,
   0x2000, 0x2001, 0x2002, 0x2003, 0x2004, 0x2005, 0x2006, 0x2007,
   0x2008, 0x2009, 0x200A, 0x2028, 0x2029, 0x202F, 0x205F, 0x3000, 0xFEFF]

/-- Whether a character is JavaScript whitespace. -/
def isJsSpace (c : Char) : Bool := jsWhitespaceCodes.contains c.toNat

/-- Strip leading and trailing JavaScript whitespace from a character list. -/
def jsTrimList (cs : List Char) : List Char :=
  ((cs.dropWhile isJsSpace).reverse.dropWhile isJsSpace).reverse

/-- `String.prototype.trim`. -/
def jsTrim (s : String) : String := String.mk (jsTrimList s.toList)

/-- `String.prototype.toLowerCase` (ASCII fragment, which is all the code
relies on). -/
def jsToLower (s : String) : String := String.mk (s.toList.map Char.toLower)

/-! ### Value object: Email (src/domain/value-objects/Email.ts) -/

/-- The `Email` value object; `value` is the stored normalized string. -/
structure Email where
  value : String
deriving DecidableEq

namespace Email

/-- A character matched by the regex class `[^\s@]`. -/
def atomChar (c : Char) : Bool := !isJsSpace c && c != '@'

/-- `Email.isValid`: `/^[^\s@]+@[^\s@]+\.[^\s@]+$/.test(email)`.  The anchored
regex matches exactly the strings that decompose as `a ++ "@" ++ b ++ "." ++ c`
with `a`, `b`, `c` non-empty runs of `[^\s@]` characters; `i` ranges over the
position of the `'@'` and `j` over the position of the separating `'.'`. -/
def isValid (s : String) : Bool :=
  let cs := s.toList
  let n := cs.length
  (List.range n).any fun i =>
    (List.range n).any fun j =>
      decide (1 ≤ i) && decide (i + 1 < j) && decide (j + 1 < n) &&
      (cs.getD i ' ' == '@') && (cs.getD j ' ' == '.') &&
      (cs.take i).all atomChar &&
      ((cs.drop (i + 1)).take (j - (i + 1))).all atomChar &&
      (cs.drop (j + 1)).all atomChar

/-- `new Email(email)`: throws `'Invalid email format'` unless `isValid`,
otherwise stores `email.toLowerCase().trim()`. -/
def create (email : String) : Except String Email :=
  if isValid email then Except.ok ⟨jsTrim (jsToLower email)⟩
  else Except.error "Invalid email format"

end Email

/-! ### Value object: Username (src, Username.ts) -/

/-- The `Username` value object; `value` is the stored trimmed string. -/
structure Username where
  value : String
deriving DecidableEq

namespace Username

/-- `Username.isValid`: falsy or trimmed length outside 3..50 fails, then
`/^[a-zA-Z0-9_]+$/.test(username.trim())`. -/
def isValid (username : String) : Bool :=
  if username == "" || decide ((jsTrim username).length < 3)
      || decide (50 < (jsTrim username).length) then false
  else (jsTrim username).toList.all fun c => c.isAlphanum || c == '_'

/-- `new Username(username)`: throws `'Invalid username format'` unless
`isValid`, otherwise stores `username.trim()`. -/
def create (username : String) : Except String Username :=
  if isValid username then Except.ok ⟨jsTrim username⟩
  else Except.error "Invalid username format"

end Username

/-! ### Value object: Password (src/domain/value-objects/Password.ts) -/

/-- The `Password` value object (construction-time only, never stored). -/
structure Password where
  value : String
deriving DecidableEq

namespace Password

/-- `Password.isValid`: `Boolean(password) && password.length >= 8`. -/
def isValid (password : String) : Bool :=
  !(password == "") && decide (8 ≤ password.length)

/-- `new Password(password)`. -/
def create (password : String) : Except String Password :=
  if isValid password then Except.ok ⟨password⟩
  else Except.error "Password must be at least 8 characters long"

end Password

/-! ### The User aggregate (src/domain/entities/User.ts) -/

/-- `UserRole = 'user' | 'admin'` (the entity's own role field; use-case
requests carry the requester's role as a raw string). -/
inductive UserRole
  | user
  | admin
deriving DecidableEq

/-- `SocialProvider = 'google' | 'facebook' | 'github'`. -/
inductive SocialProvider
  | google
  | facebook
  | github
deriving DecidableEq

/-- The string interpolated for a provider in error messages. -/
def SocialProvider.name : SocialProvider → String
  | .google => "google"
  | .facebook => "facebook"
  | .github => "github"

instance : BEq SocialProvider := instBEqOfDecidableEq

/-- `UserProfile` (names required, the rest optional). -/
structure UserProfile where
  firstName : String
  lastName : String
  displayName : Option String
  gender : Option String
  avatarUrl : Option String
  phone : Option String
  dateOfBirth : Option Nat
  bio : Option String
deriving DecidableEq

/-- `Address` as stored on the aggregate. -/
structure Address where
  id : String
  type : String
  addressLine1 : String
  addressLine2 : Option String
  city : String
  stateProvince : Option String
  postalCode : Option String
  country : String
  isDefault : Bool
  createdAt : Nat
  updatedAt : Nat
deriving DecidableEq

/-- The caller-supplied part of an address
(`Omit<Address, 'id' | 'createdAt' | 'updatedAt'>`). -/
structure AddressInput where
  type : String
  addressLine1 : String
  addressLine2 : Option String
  city : String
  stateProvince : Option String
  postalCode : Option String
  country : String
  isDefault : Bool
deriving DecidableEq

/-- `SocialAccount`; `providerData : Record<string, unknown>` is modelled as
an association list over opaque string values. -/
structure SocialAccount where
  id : String
  provider : SocialProvider
  providerId : String
  providerEmail : String
  providerData : List (String × String)
  linkedAt : Nat
  isActive : Bool
deriving DecidableEq

/-- Notification toggles inside `UserPreferences`. -/
structure NotificationPrefs where
  email : Bool
  push : Bool
  sms : Bool
deriving DecidableEq

/-- Privacy block inside `UserPreferences`; `profileVisibility` is one of
`'public' | 'friends' | 'private'`, kept as the raw string the code compares
against. -/
structure PrivacyPrefs where
  profileVisibility : String
  showEmail : Bool
  showPhone : Bool
deriving DecidableEq

/-- `UserPreferences`. -/
structure UserPreferences where
  language : String
  timezone : String
  notifications : NotificationPrefs
  privacy : PrivacyPrefs
deriving DecidableEq

/-- `UserProps` / the `User` entity's state.  `Date` fields are `Nat`
timestamps; `customFields : Record<string, unknown>` is an association list. -/
structure User where
  id : Option String
  username : Username
  email : Email
  passwordHash : Option String
  role : UserRole
  profile : UserProfile
  addresses : List Address
  socialAccounts : List SocialAccount
  emailVerified : Bool
  phoneVerified : Bool
  isActive : Bool
  isSuspended : Bool
  suspendedReason : Option String
  suspendedAt : Option Nat
  preferences : UserPreferences
  lastLoginAt : Option Nat
  lastActiveAt : Option Nat
  loginCount : Nat
  customFields : List (String × String)
  createdAt : Nat
  updatedAt : Nat
  createdBy : Option String
  updatedBy : Option String
deriving DecidableEq

namespace User

/-- `canLogin()`: `isActive && !isSuspended && emailVerified`. -/
def canLogin (u : User) : Bool :=
  u.isActive && !u.isSuspended && u.emailVerified

/-- `canAccessAdminFeatures()`: `role === 'admin' && canLogin()`. -/
def canAccessAdminFeatures (u : User) : Bool :=
  u.role == UserRole.admin && u.canLogin

/-- `activate()`. -/
def activate (u : User) (now : Nat) : User :=
  { u with isActive := true, updatedAt := now }

/-- `deactivate()`. -/
def deactivate (u : User) (now : Nat) : User :=
  { u with isActive := false, updatedAt := now }

/-- `suspend(reason)`. -/
def suspend (u : User) (reason : String) (now : Nat) : User :=
  { u with isSuspended := true, suspendedReason := some reason,
           suspendedAt := some now, updatedAt := now }

/-- `unsuspend()`. -/
def unsuspend (u : User) (now : Nat) : User :=
  { u with isSuspended := false, suspendedReason := none,
           suspendedAt := none, updatedAt := now }

/-- `verifyEmail()`. -/
def verifyEmail (u : User) (now : Nat) : User :=
  { u with emailVerified := true, updatedAt := now }

/-- `recordLogin()`. -/
def recordLogin (u : User) (now : Nat) : User :=
  { u with lastLoginAt := some now, lastActiveAt := some now,
           loginCount := u.loginCount + 1, updatedAt := now }

/-- `changePassword(newPasswordHash)`. -/
def changePassword (u : User) (newPasswordHash : String) (now : Nat) : User :=
  { u with passwordHash := some newPasswordHash, updatedAt := now }

/-- `addAddress(address)`: builds the new record with a fresh id and
timestamps; if the list is empty or the input is marked default, clears the
default flag on every existing address and forces the new one to be the
default; finally appends the new record. -/
def addAddress (u : User) (address : AddressInput) (newId : String) (now : Nat) : User :=
  let newAddress : Address :=
    { id := newId, type := address.type, addressLine1 := address.addressLine1,
      addressLine2 := address.addressLine2, city := address.city,
      stateProvince := address.stateProvince, postalCode := address.postalCode,
      country := address.country, isDefault := address.isDefault,
      createdAt := now, updatedAt := now }
  if u.addresses.length == 0 || address.isDefault then
    { u with
        addresses := (u.addresses.map fun a => { a with isDefault := false })
          ++ [{ newAddress with isDefault := true }],
        updatedAt := now }
  else
    { u with addresses := u.addresses ++ [newAddress], updatedAt := now }

end User

/-- Object-spread merge `{...old, ...new}` for `providerData`: keys of `new`
override those of `old`. -/
def mergeData (old new : List (String × String)) : List (String × String) :=
  (old.filter fun p => !(new.any fun q => q.1 == p.1)) ++ new

/-- `findIndex` on a list (returns the first index satisfying the
predicate). -/
def findIndexOpt (pred : α → Bool) : List α → Option Nat
  | [] => none
  | a :: as => if pred a then some 0 else (findIndexOpt pred as).map (· + 1)

/-- In-place update of the element at an index (the assignment
`arr[i] = ...`). -/
def listModify (f : α → α) : Nat → List α → List α
  | _, [] => []
  | 0, a :: as => f a :: as
  | Nat.succ n, a :: as => a :: listModify f n as

namespace User

/-- The update `linkSocialAccount` applies to an already-linked active
account: replaces `providerId`/`providerEmail`, spread-merges `providerData`,
refreshes `linkedAt`; `id`, `provider`, `isActive` are kept. -/
def refreshSocialAccount (providerId providerEmail : String)
    (providerData : List (String × String)) (now : Nat)
    (a : SocialAccount) : SocialAccount :=
  { a with providerId := providerId, providerEmail := providerEmail,
           providerData := mergeData a.providerData providerData,
           linkedAt := now }

/-- `linkSocialAccount(provider, providerId, providerEmail, providerData)`:
if an active account for `provider` exists, update it in place; otherwise
append a new active record with a fresh id. -/
def linkSocialAccount (u : User) (provider : SocialProvider)
    (providerId providerEmail : String) (providerData : List (String × String))
    (newId : String) (now : Nat) : User :=
  match findIndexOpt (fun a => a.provider == provider && a.isActive) u.socialAccounts with
  | some i =>
      { u with
          socialAccounts :=
            listModify (refreshSocialAccount providerId providerEmail providerData now)
              i u.socialAccounts,
          updatedAt := now }
  | none =>
      { u with
          socialAccounts := u.socialAccounts ++
            [{ id := newId, provider := provider, providerId := providerId,
               providerEmail := providerEmail, providerData := providerData,
               linkedAt := now, isActive := true }],
          updatedAt := now }

end User

/-! ### Use case: CreateUser -/

/-- Result of the persistence port's `exists(email, username)` check:
`{ exists: boolean; conflicts?: { email: boolean; username: boolean } }`. -/
structure Conflicts where
  email : Bool
  username : Bool
deriving DecidableEq

/-- The `exists` check's full result (`conflicts` optional). -/
structure ExistsResult where
  exists_ : Bool
  conflicts : Option Conflicts
deriving DecidableEq

/-- `CreateUserRequest`. -/
structure CreateUserRequest where
  username : String
  email : String
  password : String
  firstName : String
  lastName : String
  role : Option UserRole
  gender : Option String
  phone : Option String
  dateOfBirth : Option Nat
  bio : Option String
deriving DecidableEq

/-- `CreateUserResponse`. -/
structure CreateUserResponse where
  user : User
  requiresEmailVerification : Bool
deriving DecidableEq

namespace CreateUser

/-- The conflict message list built when `exists` reports a hit:
`conflicts?.email` contributes `'Email already registered'`,
`conflicts?.username` contributes `'Username already taken'`. -/
def conflictMessages (r : ExistsResult) : List String :=
  (if (r.conflicts.map Conflicts.email).getD false
    then ["Email already registered"] else []) ++
  (if (r.conflicts.map Conflicts.username).getD false
    then ["Username already taken"] else [])

/-- `CreateUser.execute`: value-object construction, the duplicate check
(throwing the joined conflict list), hashing, and assembly of the new `User`;
`existsCheck` and `repoCreate` stand for the persistence port, `hashPassword`
for the injected hasher. -/
def execute (existsCheck : Email → Username → ExistsResult)
    (hashPassword : String → String) (repoCreate : User → User) (now : Nat)
    (request : CreateUserRequest) : Except String CreateUserResponse :=
  match Email.create request.email with
  | Except.error e => Except.error e
  | Except.ok email =>
  match Username.create request.username with
  | Except.error e => Except.error e
  | Except.ok username =>
  match Password.create request.password with
  | Except.error e => Except.error e
  | Except.ok password =>
  let existingUser := existsCheck email username
  if existingUser.exists_ then
    Except.error (String.intercalate ", " (conflictMessages existingUser))
  else
    let user : User :=
      { id := none, username := username, email := email,
        passwordHash := some (hashPassword password.value),
        role := request.role.getD UserRole.user,
        profile :=
          { firstName := request.firstName, lastName := request.lastName,
            displayName := none, gender := request.gender, avatarUrl := none,
            phone := request.phone, dateOfBirth := request.dateOfBirth,
            bio := request.bio },
        addresses := [], socialAccounts := [],
        emailVerified := false, phoneVerified := false,
        isActive := true, isSuspended := false,
        suspendedReason := none, suspendedAt := none,
        preferences :=
          { language := "en", timezone := "UTC",
            notifications := { email := true, push := true, sms := false },
            privacy := { profileVisibility := "public", showEmail := false,
                         showPhone := false } },
        lastLoginAt := none, lastActiveAt := none, loginCount := 0,
        customFields := [], createdAt := now, updatedAt := now,
        createdBy := none, updatedBy := none }
    Except.ok { user := repoCreate user, requiresEmailVerification := true }

end CreateUser

/-! ### Use case: LoginUser -/

/-- `LoginUserRequest`. -/
structure LoginUserRequest where
  email : String
  password : String
deriving DecidableEq

/-- The injected `generateTokens` collaborator's output. -/
structure Tokens where
  accessToken : String
  refreshToken : String
deriving DecidableEq

/-- `LoginUserResponse`. -/
structure LoginUserResponse where
  user : User
  tokens : Tokens
deriving DecidableEq

namespace LoginUser

/-- The reason list when `canLogin()` is false. -/
def blockedReasons (u : User) : List String :=
  (if !u.isActive then ["account is inactive"] else []) ++
  (if u.isSuspended then ["account is suspended"] else []) ++
  (if !u.emailVerified then ["email is not verified"] else [])

/-- `LoginUser.execute`: input check, email lookup, `canLogin` gate, hash
presence check, password comparison, then `recordLogin` and token issuance.
`findByEmail` is the persistence port, `comparePassword`/`generateTokens`
the injected collaborators; the payload passed to `generateTokens` is
`(userId, email value, role)`.  The `.ok` user is the one handed to
`repository.update`. -/
def execute (findByEmail : Email → Option User)
    (comparePassword : String → String → Bool)
    (generateTokens : Option String → String → UserRole → Tokens) (now : Nat)
    (request : LoginUserRequest) : Except String LoginUserResponse :=
  if request.email == "" || request.password == "" then
    Except.error "Email and password are required"
  else match Email.create request.email with
  | Except.error e => Except.error e
  | Except.ok emailVO =>
    match findByEmail emailVO with
    | none => Except.error "Invalid email or password"
    | some user =>
      if !user.canLogin then
        Except.error ("Cannot login: " ++ String.intercalate ", " (blockedReasons user))
      else match user.passwordHash with
      | none => Except.error "Password not set for this account"
      | some hash =>
        if !comparePassword request.password hash then
          Except.error "Invalid email or password"
        else
          let u := user.recordLogin now
          Except.ok { user := u,
                      tokens := generateTokens u.id u.email.value u.role }

end LoginUser

/-! ### Use case: GetUser -/

/-- `GetUserRequest`. -/
structure GetUserRequest where
  userId : String
  requestingUserId : String
  requestingUserRole : String
deriving DecidableEq

namespace GetUser

/-- `GetUser.execute`: target lookup first, then the self-or-admin check;
non-owners hitting a `private` profile get the distinct error. -/
def execute (findById : String → Option User)
    (request : GetUserRequest) : Except String User :=
  match findById request.userId with
  | none => Except.error "User not found"
  | some targetUser =>
    if !(request.requestingUserRole == "admin"
        || request.requestingUserId == request.userId) then
      if targetUser.preferences.privacy.profileVisibility == "private" then
        Except.error "This profile is private"
      else Except.ok targetUser
    else Except.ok targetUser

end GetUser

/-! ### Use case: UpdateUser -/

/-- `Partial<UserProfile>`: present fields override. -/
structure UserProfilePatch where
  firstName : Option String
  lastName : Option String
  displayName : Option String
  gender : Option String
  avatarUrl : Option String
  phone : Option String
  dateOfBirth : Option Nat
  bio : Option String
deriving DecidableEq

/-- `Partial<UserPreferences>` (the merge in `updatePreferences` is shallow:
a supplied `notifications`/`privacy` block replaces the whole block). -/
structure UserPreferencesPatch where
  language : Option String
  timezone : Option String
  notifications : Option NotificationPrefs
  privacy : Option PrivacyPrefs
deriving DecidableEq

/-- `{...this.props.profile, ...profile}`. -/
def UserProfile.merge (base : UserProfile) (p : UserProfilePatch) : UserProfile :=
  { firstName := p.firstName.getD base.firstName,
    lastName := p.lastName.getD base.lastName,
    displayName := if p.displayName.isSome then p.displayName else base.displayName,
    gender := if p.gender.isSome then p.gender else base.gender,
    avatarUrl := if p.avatarUrl.isSome then p.avatarUrl else base.avatarUrl,
    phone := if p.phone.isSome then p.phone else base.phone,
    dateOfBirth := if p.dateOfBirth.isSome then p.dateOfBirth else base.dateOfBirth,
    bio := if p.bio.isSome then p.bio else base.bio }

/-- `{...this.props.preferences, ...preferences}`. -/
def UserPreferences.merge (base : UserPreferences) (p : UserPreferencesPatch) : UserPreferences :=
  { language := p.language.getD base.language,
    timezone := p.timezone.getD base.timezone,
    notifications := p.notifications.getD base.notifications,
    privacy := p.privacy.getD base.privacy }

/-- `updateProfile(profile)` on the aggregate. -/
def User.updateProfile (u : User) (p : UserProfilePatch) (now : Nat) : User :=
  { u with profile := u.profile.merge p, updatedAt := now }

/-- `updatePreferences(preferences)` on the aggregate. -/
def User.updatePreferences (u : User) (p : UserPreferencesPatch) (now : Nat) : User :=
  { u with preferences := u.preferences.merge p, updatedAt := now }

/-- `UpdateUserRequest`. -/
structure UpdateUserRequest where
  userId : String
  requestingUserId : String
  requestingUserRole : String
  profile : Option UserProfilePatch
  preferences : Option UserPreferencesPatch
deriving DecidableEq

namespace UpdateUser

/-- `UpdateUser.execute`: target lookup first, then self-or-admin, then the
optional profile/preferences merges; the `.ok` user is the one handed to
`repository.update`. -/
def execute (findById : String → Option User) (now : Nat)
    (request : UpdateUserRequest) : Except String User :=
  match findById request.userId with
  | none => Except.error "User not found"
  | some user =>
    if !(request.requestingUserRole == "admin"
        || request.requestingUserId == request.userId) then
      Except.error "You can only update your own profile or you must be an admin"
    else
      let u1 := match request.profile with
        | some p => user.updateProfile p now
        | none => user
      let u2 := match request.preferences with
        | some p => u1.updatePreferences p now
        | none => u1
      Except.ok u2

end UpdateUser

/-! ### Use case: DeleteUser -/

/-- `DeleteUserRequest`. -/
structure DeleteUserRequest where
  userId : String
  requestingUserId : String
  requestingUserRole : String
deriving DecidableEq

/-- `DeleteUserResponse`. -/
structure DeleteUserResponse where
  message : String
  deletedAt : Nat
deriving DecidableEq

namespace DeleteUser

/-- `DeleteUser.execute`: target lookup first, then self-or-admin, then the
admin-self-delete guard, then the soft delete (`deactivate` + `suspend` with
reason `'Account deleted by user'`).  The `.ok` value carries the user handed
to `repository.update` — the code never calls `repository.delete`, so the
record is kept. -/
def execute (findById : String → Option User) (now : Nat)
    (request : DeleteUserRequest) : Except String (User × DeleteUserResponse) :=
  match findById request.userId with
  | none => Except.error "User not found"
  | some user =>
    if !(request.requestingUserRole == "admin"
        || request.requestingUserId == request.userId) then
      Except.error "You can only delete your own account or you must be an admin"
    else if request.requestingUserId == request.userId
        && request.requestingUserRole == "admin" then
      Except.error "Administrators cannot delete their own account"
    else
      let u := (user.deactivate now).suspend "Account deleted by user" now
      Except.ok (u, { message := "User account has been successfully deleted",
                      deletedAt := now })

end DeleteUser

/-! ### Use case: ListUsers -/

/-- JavaScript `x || d` on an optional number (`0` is falsy). -/
def jsOrNat : Option Nat → Nat → Nat
  | none, d => d
  | some v, d => if v == 0 then d else v

/-- JavaScript `x || d` on an optional string (`''` is falsy). -/
def jsOrStr : Option String → String → String
  | none, d => d
  | some v, d => if v == "" then d else v

/-- `UserFilters` (all fields optional). -/
structure UserFilters where
  isActive : Option Bool
  emailVerified : Option Bool
  role : Option String
  isSuspended : Option Bool
  createdAfter : Option Nat
  createdBefore : Option Nat
deriving DecidableEq

/-- `PaginationOptions` as supplied by the caller (`page`/`limit` required
numbers, `sortBy`/`sortOrder` optional). -/
structure PaginationOptionsIn where
  page : Nat
  limit : Nat
  sortBy : Option String
  sortOrder : Option String
deriving DecidableEq

/-- The fully-defaulted options the use case passes to the persistence
port's `findAll`. -/
structure PaginationOptions where
  page : Nat
  limit : Nat
  sortBy : String
  sortOrder : String
deriving DecidableEq

/-- `PaginationResult<User>`. -/
structure PaginationResult where
  data : List User
  page : Nat
  limit : Nat
  total : Nat
  pages : Nat
deriving DecidableEq

/-- `ListUsersRequest`. -/
structure ListUsersRequest where
  requestingUserRole : String
  filters : Option UserFilters
  options : Option PaginationOptionsIn
deriving DecidableEq

namespace ListUsers

/-- The defaulting performed on the requested options:
`page: options?.page || 1`, `limit: Math.min(options?.limit || 20, 100)`,
`sortBy: options?.sortBy || 'createdAt'`, `sortOrder: options?.sortOrder ||
'desc'`. -/
def queryOptions (options : Option PaginationOptionsIn) : PaginationOptions :=
  { page := jsOrNat (options.map PaginationOptionsIn.page) 1,
    limit := min (jsOrNat (options.map PaginationOptionsIn.limit) 20) 100,
    sortBy := jsOrStr (options.bind PaginationOptionsIn.sortBy) "createdAt",
    sortOrder := jsOrStr (options.bind PaginationOptionsIn.sortOrder) "desc" }

/-- `ListUsers.execute`: admin-only gate, then `findAll` with the defaulted
options; `findAll` is the persistence port. -/
def execute (findAll : Option UserFilters → PaginationOptions → PaginationResult)
    (request : ListUsersRequest) : Except String PaginationResult :=
  if !(request.requestingUserRole == "admin") then
    Except.error "Only administrators can view all users"
  else
    Except.ok (findAll request.filters (queryOptions request.options))

end ListUsers

/-! ### Use case: SearchUsers -/

/-- The caller-supplied search options. -/
structure SearchOptionsIn where
  limit : Option Nat
  skip : Option Nat
  includeInactive : Option Bool
deriving DecidableEq

/-- `SearchOptions` as passed to the persistence port's `search`;
`includeInactive` stays optional there (`undefined` when an admin supplies no
options), so it is an `Option Bool`. -/
structure SearchOptions where
  page : Nat
  limit : Nat
  skip : Nat
  includeInactive : Option Bool
deriving DecidableEq

/-- `SearchUsersRequest`. -/
structure SearchUsersRequest where
  query : String
  requestingUserRole : String
  options : Option SearchOptionsIn
deriving DecidableEq

namespace SearchUsers

/-- The options built by the use case:
`page: 1`, `limit: Math.min(options?.limit || 20, 50)`,
`skip: options?.skip || 0`, and
`includeInactive: requestingUserRole === 'admin' && options?.includeInactive`
(short-circuit: a non-admin requester yields the literal `false`). -/
def searchOptions (requestingUserRole : String)
    (options : Option SearchOptionsIn) : SearchOptions :=
  { page := 1,
    limit := min (jsOrNat (options.bind SearchOptionsIn.limit) 20) 50,
    skip := jsOrNat (options.bind SearchOptionsIn.skip) 0,
    includeInactive :=
      if requestingUserRole == "admin" then options.bind SearchOptionsIn.includeInactive
      else some false }

/-- `SearchUsers.execute`: query validation (falsy or trimmed length < 2),
then `search(query.trim(), searchOptions)` on the persistence port. -/
def execute (search : String → SearchOptions → List User)
    (request : SearchUsersRequest) : Except String (List User) :=
  if request.query == "" || decide ((jsTrim request.query).length < 2) then
    Except.error "Search query must be at least 2 characters long"
  else
    Except.ok (search (jsTrim request.query)
      (searchOptions request.requestingUserRole request.options))

end SearchUsers

/-! ### Use case: LinkSocialAccount -/

/-- `LinkSocialAccountRequest` (`providerData` defaults to `{}`). -/
structure LinkSocialAccountRequest where
  userId : String
  requestingUserId : String
  requestingUserRole : String
  provider : SocialProvider
  providerId : String
  providerEmail : String
  providerData : List (String × String)
deriving DecidableEq

namespace LinkSocialAccount

/-- `LinkSocialAccount.execute`: self-or-admin gate, target lookup,
cross-user uniqueness check through `findBySocialAccount` (conflict when the
found user's id differs from the target id — `existingUser.id !== userId`),
then the aggregate's `linkSocialAccount` and `repository.update`; the `.ok`
value is the updated user handed to `update`, so an `.error` leaves the
target untouched. -/
def execute (findById : String → Option User)
    (findBySocialAccount : SocialProvider → String → Option User)
    (newId : String) (now : Nat)
    (request : LinkSocialAccountRequest) : Except String User :=
  if !(request.requestingUserRole == "admin"
      || request.requestingUserId == request.userId) then
    Except.error "You can only link social accounts to your own profile"
  else match findById request.userId with
  | none => Except.error "User not found"
  | some user =>
    match findBySocialAccount request.provider request.providerId with
    | some existingUser =>
      if !(existingUser.id == some request.userId) then
        Except.error ("This " ++ request.provider.name
          ++ " account is already linked to another user")
      else
        Except.ok (user.linkSocialAccount request.provider request.providerId
          request.providerEmail request.providerData newId now)
    | none =>
      Except.ok (user.linkSocialAccount request.provider request.providerId
        request.providerEmail request.providerData newId now)

end LinkSocialAccount

/-! ### Derived measures used by the invariants -/

/-- Number of *active* social accounts for a given provider on an account
list (the aggregate-local uniqueness invariant counts these). -/
def activeCount (p : SocialProvider) (accs : List SocialAccount) : Nat :=
  accs.countP fun a => a.provider == p && a.isActive

/-- Number of addresses flagged as default. -/
def defaultCount (l : List Address) : Nat :=
  l.countP fun x => x.isDefault

/-- A concrete user in the initial state registration produces (active,
unsuspended) with a verified email and a stored credential; used to
instantiate the universally quantified theorems below on explicit inputs. -/
def baseUser : User :=
  { id := some "user-1", username := ⟨"alice_01"⟩, email := ⟨"alice@example.com"⟩,
    passwordHash := some "stored-hash", role := UserRole.user,
    profile :=
      { firstName := "Alice", lastName := "Smith", displayName := none,
        gender := none, avatarUrl := none, phone := none, dateOfBirth := none,
        bio := none },
    addresses := [], socialAccounts := [],
    emailVerified := true, phoneVerified := false,
    isActive := true, isSuspended := false,
    suspendedReason := none, suspendedAt := none,
    preferences :=
      { language := "en", timezone := "UTC",
        notifications := { email := true, push := true, sms := false },
        privacy := { profileVisibility := "public", showEmail := false,
                     showPhone := false } },
    lastLoginAt := none, lastActiveAt := none, loginCount := 0,
    customFields := [], createdAt := 0, updatedAt := 0,
    createdBy := none, updatedBy := none }

/-- A concrete address already stored (and flagged default) on a user. -/
def baseAddress : Address :=
  { id := "addr-1", type := "home", addressLine1 := "1 Main St",
    addressLine2 := none, city := "Springfield", stateProvince := none,
    postalCode := none, country := "US", isDefault := true,
    createdAt := 0, updatedAt := 0 }

/-- A concrete address input (not marked default). -/
def plainAddressInput : AddressInput :=
  { type := "work", addressLine1 := "2 Side St", addressLine2 := none,
    city := "Springfield", stateProvince := none, postalCode := none,
    country := "US", isDefault := false }

/-- A concrete address input explicitly marked default. -/
def defaultAddressInput : AddressInput :=
  { plainAddressInput with isDefault := true }

/-! ## Theorems -/

/-- **C1.** For every User state, over all 8 combinations of the booleans
`isActive`, `isSuspended`, `emailVerified`: `canLogin()` returns true if and
only if `isActive` is true, `isSuspended` is false and `emailVerified` is
true; in particular it is false whenever any one of {inactive, suspended,
unverified} holds. -/
theorem canLogin_iff_active_unsuspended_verified (u : User) :
    (u.canLogin = (u.isActive && !u.isSuspended && u.emailVerified)) ∧
    (u.canLogin = true ↔
      u.isActive = true ∧ u.isSuspended = false ∧ u.emailVerified = true) ∧
    ((u.isActive = false ∨ u.isSuspended = true ∨ u.emailVerified = false) →
      u.canLogin = false) := by
  refine ⟨rfl, ?_, ?_⟩
  · simp [User.canLogin, and_assoc]
  · intro h
    rcases h with h | h | h <;> simp [User.canLogin, h]

/-- Witness for `canLogin_iff_active_unsuspended_verified`: evaluated on the
concrete `baseUser` (and on its suspended variant). -/
theorem canLogin_iff_active_unsuspended_verified_witness :
    baseUser.canLogin = true ∧
    (baseUser.suspend "r" 1).canLogin = false := by
  constructor
  · exact (canLogin_iff_active_unsuspended_verified baseUser).2.1.mpr
      ⟨by decide, by decide, by decide⟩
  · exact (canLogin_iff_active_unsuspended_verified (baseUser.suspend "r" 1)).2.2
      (Or.inr (Or.inl (by decide)))

/-- **C4 (code bug).** The claim says `Email` construction succeeds on every
valid email and normalizes case and surrounding whitespace, in particular
`Email("A@B.com ").value == Email("a@b.com").value`.  The code's validator
runs the anchored regex `/^[^\s@]+@[^\s@]+\.[^\s@]+$/` on the *untrimmed*
input, and the `[^\s@]` classes reject every whitespace character, so
`new Email("A@B.com ")` throws `'Invalid email format'` and the constructor's
`.trim()` is unreachable for whitespace-padded inputs.  This contradicts the
repository's own unit test (`Email.test.ts`, `'should trim whitespace'`,
which feeds `'  test@example.com  '`).  Lower-casing alone does work:
`Email("A@B.com")` and `Email("a@b.com")` construct equal values. -/
theorem email_whitespace_input_rejected_code_bug :
    Email.isValid "A@B.com " = false ∧
    Email.create "A@B.com " = Except.error "Invalid email format" ∧
    Email.isValid "  test@example.com  " = false ∧
    Email.create "  test@example.com  " = Except.error "Invalid email format" ∧
    Email.create "A@B.com" = Except.ok ⟨"a@b.com"⟩ ∧
    Email.create "a@b.com" = Except.ok ⟨"a@b.com"⟩ := by
  refine ⟨by decide, rfl, by decide, rfl, rfl, rfl⟩

/-- **C2.** For every login request with a well-formed email and non-empty
password, the error produced when no user with that email exists (first run:
`findByEmail` yields nothing) is identical — same error, same message text
`'Invalid email or password'` — to the error produced when the user exists,
passes `canLogin()`, has a stored hash, but the password comparison fails
(second run).  The two failure runs are indistinguishable to the caller. -/
theorem login_failures_indistinguishable
    (email password : String) (user : User) (hash : String)
    (comparePassword : String → String → Bool)
    (generateTokens : Option String → String → UserRole → Tokens) (now : Nat)
    (hemail : Email.isValid email = true) (hpassword : password ≠ "")
    (hcan : user.canLogin = true) (hhash : user.passwordHash = some hash)
    (hcompare : comparePassword password hash = false) :
    LoginUser.execute (fun _ => none) comparePassword generateTokens now
        ⟨email, password⟩
      = Except.error "Invalid email or password" ∧
    LoginUser.execute (fun _ => some user) comparePassword generateTokens now
        ⟨email, password⟩
      = Except.error "Invalid email or password" := by
  have hemail' : (email == "") = false := by
    rw [beq_eq_false_iff_ne]
    intro h
    rw [h] at hemail
    exact absurd hemail (by decide)
  have hpassword' : (password == "") = false := beq_eq_false_iff_ne.mpr hpassword
  constructor <;>
    simp [LoginUser.execute, hemail', hpassword', Email.create, hemail, hcan,
      hhash, hcompare]

/-- Witness for `login_failures_indistinguishable` at the concrete inputs
`"alice@example.com"` / `"password1"` against `baseUser`. -/
theorem login_failures_indistinguishable_witness :
    LoginUser.execute (fun _ => none) (fun _ _ => false)
        (fun _ _ _ => ⟨"", ""⟩) 0 ⟨"alice@example.com", "password1"⟩
      = Except.error "Invalid email or password" ∧
    LoginUser.execute (fun _ => some baseUser) (fun _ _ => false)
        (fun _ _ _ => ⟨"", ""⟩) 0 ⟨"alice@example.com", "password1"⟩
      = Except.error "Invalid email or password" :=
  login_failures_indistinguishable "alice@example.com" "password1" baseUser
    "stored-hash" (fun _ _ => false) (fun _ _ _ => ⟨"", ""⟩) 0
    (by decide) (by decide) (by decide) rfl rfl

/-- **C3.** For every registration request whose email, username and password
value objects construct successfully, a conflict reported by the persistence
port's `exists` check fails registration with an error naming every violated
field: email only → `'Email already registered'`; username only →
`'Username already taken'`; both taken → both messages joined, never just the
first one found. -/
theorem createUser_conflict_reports_every_field
    (hashPassword : String → String) (repoCreate : User → User) (now : Nat)
    (request : CreateUserRequest)
    (hemail : Email.isValid request.email = true)
    (husername : Username.isValid request.username = true)
    (hpassword : Password.isValid request.password = true) :
    CreateUser.execute (fun _ _ => ⟨true, some ⟨true, false⟩⟩) hashPassword
        repoCreate now request
      = Except.error "Email already registered" ∧
    CreateUser.execute (fun _ _ => ⟨true, some ⟨false, true⟩⟩) hashPassword
        repoCreate now request
      = Except.error "Username already taken" ∧
    CreateUser.execute (fun _ _ => ⟨true, some ⟨true, true⟩⟩) hashPassword
        repoCreate now request
      = Except.error "Email already registered, Username already taken" := by
  have e1 : Email.create request.email
      = Except.ok ⟨jsTrim (jsToLower request.email)⟩ := by
    simp [Email.create, hemail]
  have u1 : Username.create request.username
      = Except.ok ⟨jsTrim request.username⟩ := by
    simp [Username.create, husername]
  have p1 : Password.create request.password
      = Except.ok ⟨request.password⟩ := by
    simp [Password.create, hpassword]
  refine ⟨?_, ?_, ?_⟩ <;>
    · simp [CreateUser.execute, e1, u1, p1, CreateUser.conflictMessages]
      rfl

/-- Witness for `createUser_conflict_reports_every_field` at a concrete
valid registration request. -/
theorem createUser_conflict_reports_every_field_witness :
    CreateUser.execute (fun _ _ => ⟨true, some ⟨true, false⟩⟩) id id 0
        ⟨"alice_01", "alice@example.com", "password1", "Alice", "Smith",
          none, none, none, none, none⟩
      = Except.error "Email already registered" ∧
    CreateUser.execute (fun _ _ => ⟨true, some ⟨false, true⟩⟩) id id 0
        ⟨"alice_01", "alice@example.com", "password1", "Alice", "Smith",
          none, none, none, none, none⟩
      = Except.error "Username already taken" ∧
    CreateUser.execute (fun _ _ => ⟨true, some ⟨true, true⟩⟩) id id 0
        ⟨"alice_01", "alice@example.com", "password1", "Alice", "Smith",
          none, none, none, none, none⟩
      = Except.error "Email already registered, Username already taken" :=
  createUser_conflict_reports_every_field id id 0
    ⟨"alice_01", "alice@example.com", "password1", "Alice", "Smith",
      none, none, none, none, none⟩
    (by decide) (by decide) (by decide)

/-- **C5.** For every delete request on an existing user: a regular
(non-admin) user deleting their own account succeeds with a soft delete —
deactivated and suspended with reason `'Account deleted by user'`, the
record handed to `repository.update` rather than removed; an admin deleting
their own account fails with the distinct guard error; an admin deleting any
other user succeeds with the same soft-delete effect. -/
theorem deleteUser_soft_delete_and_admin_self_guard
    (findById : String → Option User) (now : Nat) (uid rid role : String)
    (user : User) (hfind : findById uid = some user) :
    (role ≠ "admin" →
      ∃ u' resp, DeleteUser.execute findById now ⟨uid, uid, role⟩
          = Except.ok (u', resp) ∧
        u'.isActive = false ∧ u'.isSuspended = true ∧
        u'.suspendedReason = some "Account deleted by user") ∧
    (DeleteUser.execute findById now ⟨uid, uid, "admin"⟩
      = Except.error "Administrators cannot delete their own account") ∧
    (rid ≠ uid →
      ∃ u' resp, DeleteUser.execute findById now ⟨uid, rid, "admin"⟩
          = Except.ok (u', resp) ∧
        u'.isActive = false ∧ u'.isSuspended = true ∧
        u'.suspendedReason = some "Account deleted by user") := by
  refine ⟨?_, ?_, ?_⟩
  · intro hrole
    refine ⟨(user.deactivate now).suspend "Account deleted by user" now,
      ⟨"User account has been successfully deleted", now⟩, ?_, rfl, rfl, rfl⟩
    have hrole' : (role == "admin") = false := beq_eq_false_iff_ne.mpr hrole
    simp [DeleteUser.execute, hfind, hrole']
  · simp [DeleteUser.execute, hfind]
  · intro hrid
    refine ⟨(user.deactivate now).suspend "Account deleted by user" now,
      ⟨"User account has been successfully deleted", now⟩, ?_, rfl, rfl, rfl⟩
    have hrid' : (rid == uid) = false := beq_eq_false_iff_ne.mpr hrid
    simp [DeleteUser.execute, hfind, hrid']

/-- Witness for `deleteUser_soft_delete_and_admin_self_guard` on `baseUser`
with concrete requester ids and a non-admin role. -/
theorem deleteUser_soft_delete_and_admin_self_guard_witness :
    (("user" : String) ≠ "admin" →
      ∃ u' resp, DeleteUser.execute (fun _ => some baseUser) 7
          ⟨"user-1", "user-1", "user"⟩ = Except.ok (u', resp) ∧
        u'.isActive = false ∧ u'.isSuspended = true ∧
        u'.suspendedReason = some "Account deleted by user") ∧
    (DeleteUser.execute (fun _ => some baseUser) 7 ⟨"user-1", "user-1", "admin"⟩
      = Except.error "Administrators cannot delete their own account") ∧
    (("admin-9" : String) ≠ "user-1" →
      ∃ u' resp, DeleteUser.execute (fun _ => some baseUser) 7
          ⟨"user-1", "admin-9", "admin"⟩ = Except.ok (u', resp) ∧
        u'.isActive = false ∧ u'.isSuspended = true ∧
        u'.suspendedReason = some "Account deleted by user") :=
  deleteUser_soft_delete_and_admin_self_guard (fun _ => some baseUser) 7
    "user-1" "admin-9" "user" baseUser rfl

/-! ### List helper lemmas for the social-account and address invariants -/

theorem listModify_length (f : α → α) (i : Nat) (l : List α) :
    (listModify f i l).length = l.length := by
  induction l generalizing i with
  | nil => cases i <;> rfl
  | cons a as ih =>
    cases i with
    | zero => rfl
    | succ n => simp [listModify, ih]

theorem findIndexOpt_none_countP (pred : α → Bool) (l : List α)
    (h : findIndexOpt pred l = none) : l.countP pred = 0 := by
  induction l with
  | nil => rfl
  | cons a as ih =>
    simp only [findIndexOpt] at h
    by_cases hp : pred a
    · simp [hp] at h
    · simp only [hp, if_neg, Bool.false_eq_true, ite_false,
        Option.map_eq_none'] at h
      simp [List.countP_cons, hp, ih h]

theorem findIndexOpt_some_getElem (pred : α → Bool) (l : List α) (i : Nat)
    (h : findIndexOpt pred l = some i) :
    ∃ a, l[i]? = some a ∧ pred a = true := by
  induction l generalizing i with
  | nil => simp [findIndexOpt] at h
  | cons a as ih =>
    simp only [findIndexOpt] at h
    by_cases hp : pred a
    · simp only [hp, ite_true] at h
      obtain rfl : (0 : Nat) = i := Option.some.inj h
      exact ⟨a, by simp, hp⟩
    · simp only [hp, Bool.false_eq_true, ite_false, Option.map_eq_some'] at h
      obtain ⟨i', hi', rfl⟩ := h
      obtain ⟨b, hb, hpb⟩ := ih i' hi'
      exact ⟨b, by simpa using hb, hpb⟩

theorem listModify_getElem_mem (f : α → α) (l : List α) (i : Nat) (a : α)
    (h : l[i]? = some a) : f a ∈ listModify f i l := by
  induction l generalizing i with
  | nil => simp at h
  | cons b bs ih =>
    cases i with
    | zero =>
      obtain rfl : b = a := by simpa using h
      simp [listModify]
    | succ n =>
      simp only [List.getElem?_cons_succ] at h
      simpa [listModify] using Or.inr (ih n h)

theorem findIndexOpt_listModify_pres (pred : α → Bool) (f : α → α)
    (l : List α) (i : Nat) (h : findIndexOpt pred l = some i)
    (hf : ∀ a, pred a = true → pred (f a) = true) :
    findIndexOpt pred (listModify f i l) = some i := by
  induction l generalizing i with
  | nil => simp [findIndexOpt] at h
  | cons a as ih =>
    simp only [findIndexOpt] at h
    by_cases hp : pred a
    · simp only [hp, ite_true] at h
      obtain rfl : (0 : Nat) = i := Option.some.inj h
      simp [listModify, findIndexOpt, hf a hp]
    · simp only [hp, Bool.false_eq_true, ite_false, Option.map_eq_some'] at h
      obtain ⟨i', hi', rfl⟩ := h
      simp [listModify, findIndexOpt, hp, ih i' hi']

theorem countP_listModify (pred : α → Bool) (f : α → α) (l : List α) (i : Nat)
    (hf : ∀ a, pred (f a) = pred a) :
    (listModify f i l).countP pred = l.countP pred := by
  induction l generalizing i with
  | nil => cases i <;> rfl
  | cons a as ih =>
    cases i with
    | zero => simp [listModify, List.countP_cons, hf]
    | succ n => simp [listModify, List.countP_cons, ih]

theorem findIndexOpt_append_singleton_none (pred : α → Bool) (l : List α)
    (b : α) (h : findIndexOpt pred l = none) :
    findIndexOpt pred (l ++ [b])
      = if pred b then some l.length else none := by
  induction l with
  | nil => simp [findIndexOpt]
  | cons a as ih =>
    simp only [findIndexOpt] at h
    by_cases hp : pred a
    · simp [hp] at h
    · simp only [hp, Bool.false_eq_true, ite_false, Option.map_eq_none'] at h
      simp only [List.cons_append, findIndexOpt, hp, Bool.false_eq_true,
        ite_false, List.append_eq]
      rw [ih h]
      cases hpb : pred b <;> simp [hpb]

/-- After any `linkSocialAccount` call the user has an active account for the
linked provider, i.e. `findIndex` on the updated list succeeds. -/
theorem linkSocialAccount_active_exists (u : User) (p : SocialProvider)
    (pid pe : String) (pd : List (String × String)) (nid : String) (t : Nat) :
    ∃ i, findIndexOpt (fun a => a.provider == p && a.isActive)
      (u.linkSocialAccount p pid pe pd nid t).socialAccounts = some i := by
  cases h : findIndexOpt (fun a => a.provider == p && a.isActive)
      u.socialAccounts with
  | some i =>
    refine ⟨i, ?_⟩
    simp only [User.linkSocialAccount, h]
    exact findIndexOpt_listModify_pres _ _ _ _ h (fun a ha => ha)
  | none =>
    refine ⟨u.socialAccounts.length, ?_⟩
    simp only [User.linkSocialAccount, h]
    rw [findIndexOpt_append_singleton_none _ _ _ h]
    simp [show (p == p) = decide (p = p) from rfl]

/-- A single `linkSocialAccount` call keeps every provider's active-account
count at most one. -/
theorem linkSocialAccount_activeCount_le_one (u : User) (p : SocialProvider)
    (pid pe : String) (pd : List (String × String)) (nid : String) (t : Nat)
    (q : SocialProvider) (hq : activeCount q u.socialAccounts ≤ 1) :
    activeCount q (u.linkSocialAccount p pid pe pd nid t).socialAccounts ≤ 1 := by
  unfold activeCount at hq ⊢
  cases h : findIndexOpt (fun a => a.provider == p && a.isActive)
      u.socialAccounts with
  | some i =>
    simp only [User.linkSocialAccount, h]
    rw [countP_listModify (fun a => a.provider == q && a.isActive)
      (User.refreshSocialAccount pid pe pd t) u.socialAccounts i
      (fun a => rfl)]
    exact hq
  | none =>
    simp only [User.linkSocialAccount, h]
    rw [List.countP_append]
    by_cases hpq : p = q
    · subst hpq
      have hzero : u.socialAccounts.countP
          (fun a => a.provider == p && a.isActive) = 0 :=
        findIndexOpt_none_countP _ _ h
      simp [hzero, List.countP_cons, show (p == p) = decide (p = p) from rfl]
    · have hne : (p == q) = false := by
        simp [show (p == q) = decide (p = q) from rfl, hpq]
      simpa [List.countP_cons, hne] using hq

/-- **C6.** For every user and every authorized link-social request: calling
`linkSocialAccount` twice with the same provider updates the existing active
record in place (the second call changes no list length, and the refreshed
record — provider ids replaced, `providerData` spread-merged, `linkedAt`
refreshed — sits in the list), so the user keeps at most one active account
per provider; and a use-case request whose `(provider, providerId)` pair is
already bound to a different user id fails with the conflict error naming the
provider, returning no updated user (the update never runs). -/
theorem linkSocialAccount_in_place_update_and_conflict
    (u : User) (p : SocialProvider) (pid1 pe1 pid2 pe2 : String)
    (pd1 pd2 : List (String × String)) (nid1 nid2 : String) (t1 t2 : Nat)
    (findById : String → Option User)
    (findBySocialAccount : SocialProvider → String → Option User)
    (newId : String) (now : Nat) (request : LinkSocialAccountRequest)
    (target other : User)
    (hauth : request.requestingUserId = request.userId
      ∨ request.requestingUserRole = "admin")
    (hfind : findById request.userId = some target)
    (hsoc : findBySocialAccount request.provider request.providerId = some other)
    (hother : other.id ≠ some request.userId) :
    ((u.linkSocialAccount p pid1 pe1 pd1 nid1 t1).linkSocialAccount p pid2 pe2
        pd2 nid2 t2).socialAccounts.length
      = (u.linkSocialAccount p pid1 pe1 pd1 nid1 t1).socialAccounts.length ∧
    (∀ q, activeCount q u.socialAccounts ≤ 1 →
      activeCount q ((u.linkSocialAccount p pid1 pe1 pd1 nid1 t1).linkSocialAccount
        p pid2 pe2 pd2 nid2 t2).socialAccounts ≤ 1) ∧
    (∃ old ∈ (u.linkSocialAccount p pid1 pe1 pd1 nid1 t1).socialAccounts,
      (old.provider == p && old.isActive) = true ∧
      User.refreshSocialAccount pid2 pe2 pd2 t2 old ∈
        ((u.linkSocialAccount p pid1 pe1 pd1 nid1 t1).linkSocialAccount p pid2
          pe2 pd2 nid2 t2).socialAccounts) ∧
    LinkSocialAccount.execute findById findBySocialAccount newId now request
      = Except.error ("This " ++ request.provider.name
          ++ " account is already linked to another user") := by
  obtain ⟨i, hi⟩ := linkSocialAccount_active_exists u p pid1 pe1 pd1 nid1 t1
  obtain ⟨old, hold, holdp⟩ := findIndexOpt_some_getElem _ _ _ hi
  set u1 := u.linkSocialAccount p pid1 pe1 pd1 nid1 t1 with hu1
  refine ⟨?_, ?_, ?_, ?_⟩
  · simp only [User.linkSocialAccount, hi]
    exact listModify_length _ _ _
  · intro q hq
    exact linkSocialAccount_activeCount_le_one _ _ _ _ _ _ _ q
      (linkSocialAccount_activeCount_le_one _ _ _ _ _ _ _ q hq)
  · refine ⟨old, List.getElem?_mem hold, holdp, ?_⟩
    simp only [User.linkSocialAccount, hi]
    exact listModify_getElem_mem _ _ _ _ hold
  · have hguard : (request.requestingUserRole == "admin"
        || request.requestingUserId == request.userId) = true := by
      rcases hauth with h | h
      · simp [h]
      · simp [h]
    have hother' : (other.id == some request.userId) = false :=
      beq_eq_false_iff_ne.mpr hother
    simp [LinkSocialAccount.execute, hguard, hfind, hsoc, hother']

/-- Witness for `linkSocialAccount_in_place_update_and_conflict`: `baseUser`
(no social accounts) linking google twice, and a concrete conflicting
request whose `(google, gid-1)` pair already belongs to `user-2`. -/
theorem linkSocialAccount_in_place_update_and_conflict_witness :
    ((baseUser.linkSocialAccount SocialProvider.google "gid-1" "a@g.com"
        [("k", "v1")] "sa-1" 1).linkSocialAccount SocialProvider.google "gid-2"
        "b@g.com" [("k", "v2")] "sa-2" 2).socialAccounts.length
      = (baseUser.linkSocialAccount SocialProvider.google "gid-1" "a@g.com"
        [("k", "v1")] "sa-1" 1).socialAccounts.length ∧
    (∀ q, activeCount q baseUser.socialAccounts ≤ 1 →
      activeCount q ((baseUser.linkSocialAccount SocialProvider.google "gid-1"
        "a@g.com" [("k", "v1")] "sa-1" 1).linkSocialAccount SocialProvider.google
        "gid-2" "b@g.com" [("k", "v2")] "sa-2" 2).socialAccounts ≤ 1) ∧
    (∃ old ∈ (baseUser.linkSocialAccount SocialProvider.google "gid-1" "a@g.com"
        [("k", "v1")] "sa-1" 1).socialAccounts,
      (old.provider == SocialProvider.google && old.isActive) = true ∧
      User.refreshSocialAccount "gid-2" "b@g.com" [("k", "v2")] 2 old ∈
        ((baseUser.linkSocialAccount SocialProvider.google "gid-1" "a@g.com"
          [("k", "v1")] "sa-1" 1).linkSocialAccount SocialProvider.google "gid-2"
          "b@g.com" [("k", "v2")] "sa-2" 2).socialAccounts) ∧
    LinkSocialAccount.execute (fun _ => some baseUser)
        (fun _ _ => some { baseUser with id := some "user-2" }) "sa-9" 5
        ⟨"user-1", "user-1", "user", SocialProvider.google, "gid-1",
          "a@g.com", []⟩
      = Except.error ("This " ++ SocialProvider.google.name
          ++ " account is already linked to another user") :=
  linkSocialAccount_in_place_update_and_conflict baseUser
    SocialProvider.google "gid-1" "a@g.com" "gid-2" "b@g.com" [("k", "v1")]
    [("k", "v2")] "sa-1" "sa-2" 1 2 (fun _ => some baseUser)
    (fun _ _ => some { baseUser with id := some "user-2" }) "sa-9" 5
    ⟨"user-1", "user-1", "user", SocialProvider.google, "gid-1", "a@g.com", []⟩
    baseUser { baseUser with id := some "user-2" }
    (Or.inl rfl) rfl rfl (by decide)

/-- **C7.** For every User whose address list contains at most one default
entry, after any `addAddress` call the list still contains at most one
default entry; `addAddress` on an empty list always yields exactly one
default entry (even if the given address was not marked default), and adding
an address explicitly marked default clears the flag on all previously
stored addresses (the first `u.addresses.length` entries of the result). -/
theorem addAddress_single_default_invariant (u : User) (a : AddressInput)
    (newId : String) (now : Nat) :
    (defaultCount u.addresses ≤ 1 →
      defaultCount (u.addAddress a newId now).addresses ≤ 1) ∧
    (u.addresses = [] →
      defaultCount (u.addAddress a newId now).addresses = 1) ∧
    (a.isDefault = true →
      ∀ x ∈ (u.addAddress a newId now).addresses.take u.addresses.length,
        x.isDefault = false) := by
  by_cases hc : (u.addresses.length == 0 || a.isDefault) = true
  · have hcount : defaultCount (u.addAddress a newId now).addresses = 1 := by
      have hmap : (u.addresses.map fun ad => { ad with isDefault := false }).countP
          (fun x => x.isDefault) = 0 := by
        refine List.countP_eq_zero.mpr ?_
        intro x hx
        obtain ⟨y, _, rfl⟩ := List.mem_map.mp hx
        simp
      simp [User.addAddress, hc, defaultCount, List.countP_append,
        List.countP_cons, hmap]
    refine ⟨fun _ => le_of_eq hcount, fun _ => hcount, ?_⟩
    intro _ x hx
    rw [User.addAddress] at hx
    simp only [hc, if_true] at hx
    rw [show u.addresses.length
        = (u.addresses.map fun ad => { ad with isDefault := false }).length
      from (List.length_map _ _).symm, List.take_left] at hx
    obtain ⟨y, _, rfl⟩ := List.mem_map.mp hx
    rfl
  · have hc' : (u.addresses.length == 0 || a.isDefault) = false := by
      simpa using hc
    have hlen : (u.addresses.length == 0) = false := by
      cases h : (u.addresses.length == 0) with
      | false => rfl
      | true => rw [h] at hc'; simp at hc'
    have hdef : a.isDefault = false := by
      cases h : a.isDefault with
      | false => rfl
      | true => rw [h] at hc'; simp at hc'
    have hnil : u.addresses ≠ [] := by
      intro h
      rw [h] at hlen
      simp at hlen
    refine ⟨?_, ?_, ?_⟩
    · intro hle
      simpa [User.addAddress, hc', hnil, defaultCount, List.countP_append,
        List.countP_cons, hdef] using hle
    · intro hnil'
      exact absurd hnil' hnil
    · intro h
      rw [h] at hdef
      cases hdef

/-- Witness for `addAddress_single_default_invariant`: `baseUser` with one
default address stored, adding an input explicitly marked default. -/
theorem addAddress_single_default_invariant_witness :
    (defaultCount { baseUser with addresses := [baseAddress] }.addresses ≤ 1 →
      defaultCount ({ baseUser with addresses := [baseAddress] }.addAddress
        defaultAddressInput "addr-2" 9).addresses ≤ 1) ∧
    ({ baseUser with addresses := [baseAddress] }.addresses = [] →
      defaultCount ({ baseUser with addresses := [baseAddress] }.addAddress
        defaultAddressInput "addr-2" 9).addresses = 1) ∧
    (defaultAddressInput.isDefault = true →
      ∀ x ∈ ({ baseUser with addresses := [baseAddress] }.addAddress
          defaultAddressInput "addr-2" 9).addresses.take
          { baseUser with addresses := [baseAddress] }.addresses.length,
        x.isDefault = false) :=
  addAddress_single_default_invariant
    { baseUser with addresses := [baseAddress] } defaultAddressInput "addr-2" 9

/-- **C8.** For every `listUsers` request: a non-admin requester fails with
the admin-only error regardless of the filters and pagination supplied; for
an admin the options passed to the persistence port default to page 1,
limit 20, sort key `createdAt`, direction `desc`, and any requested limit
above 100 is silently clamped to 100. -/
theorem listUsers_admin_gate_defaults_and_clamp
    (findAll : Option UserFilters → PaginationOptions → PaginationResult)
    (filters : Option UserFilters) (role : String) :
    (role ≠ "admin" → ∀ options,
      ListUsers.execute findAll ⟨role, filters, options⟩
        = Except.error "Only administrators can view all users") ∧
    (ListUsers.execute findAll ⟨"admin", filters, none⟩
      = Except.ok (findAll filters ⟨1, 20, "createdAt", "desc"⟩)) ∧
    (∀ options : PaginationOptionsIn, 100 < options.limit →
      ∃ qo : PaginationOptions,
        ListUsers.execute findAll ⟨"admin", filters, some options⟩
          = Except.ok (findAll filters qo) ∧ qo.limit = 100) := by
  refine ⟨?_, ?_, ?_⟩
  · intro hrole options
    have hrole' : (role == "admin") = false := beq_eq_false_iff_ne.mpr hrole
    simp [ListUsers.execute, hrole']
  · rfl
  · intro options hlim
    refine ⟨ListUsers.queryOptions (some options), rfl, ?_⟩
    have h0 : (options.limit == 0) = false := by
      rw [beq_eq_false_iff_ne]
      omega
    simp [ListUsers.queryOptions, jsOrNat, h0,
      Nat.min_eq_right (Nat.le_of_lt hlim)]

/-- Witness for `listUsers_admin_gate_defaults_and_clamp`: instantiated with
a discarding port, empty filters, and the non-admin role `"user"`; the final
conjunct is evaluated at a requested limit of 500. -/
theorem listUsers_admin_gate_defaults_and_clamp_witness :
    (("user" : String) ≠ "admin" → ∀ options,
      ListUsers.execute (fun _ _ => ⟨[], 0, 0, 0, 0⟩) ⟨"user", none, options⟩
        = Except.error "Only administrators can view all users") ∧
    (ListUsers.execute (fun _ _ => ⟨[], 0, 0, 0, 0⟩) ⟨"admin", none, none⟩
      = Except.ok (⟨[], 0, 0, 0, 0⟩ : PaginationResult)) ∧
    (∀ options : PaginationOptionsIn, 100 < options.limit →
      ∃ qo : PaginationOptions,
        ListUsers.execute (fun _ _ => ⟨[], 0, 0, 0, 0⟩)
            ⟨"admin", none, some options⟩
          = Except.ok (⟨[], 0, 0, 0, 0⟩ : PaginationResult)
          ∧ qo.limit = 100) :=
  listUsers_admin_gate_defaults_and_clamp (fun _ _ => ⟨[], 0, 0, 0, 0⟩) none "user"

/-- **C9.** For every `searchUsers` request with a valid (trimmed, at least
2-character) query from a non-admin requester, the options actually passed
to the persistence port's `search` call carry `includeInactive = false`,
even when the request asked for `includeInactive: true` — silently forced,
not rejected. -/
theorem searchUsers_forces_includeInactive_false
    (search : String → SearchOptions → List User) (q role : String)
    (options : Option SearchOptionsIn)
    (hq : 2 ≤ (jsTrim q).length) (hrole : role ≠ "admin") :
    ∃ so : SearchOptions,
      SearchUsers.execute search ⟨q, role, options⟩
        = Except.ok (search (jsTrim q) so) ∧ so.includeInactive = some false := by
  have hqe : (q == "") = false := by
    rw [beq_eq_false_iff_ne]
    rintro rfl
    exact absurd hq (by decide)
  have hlt : (decide ((jsTrim q).length < 2)) = false := decide_eq_false (by omega)
  refine ⟨SearchUsers.searchOptions role options, ?_, ?_⟩
  · simp [SearchUsers.execute, hqe, hlt]
  · have hrole' : (role == "admin") = false := beq_eq_false_iff_ne.mpr hrole
    simp [SearchUsers.searchOptions, hrole']

/-- Witness for `searchUsers_forces_includeInactive_false`: the concrete
query `"ali"` from role `"user"` explicitly requesting
`includeInactive: true`. -/
theorem searchUsers_forces_includeInactive_false_witness :
    ∃ so : SearchOptions,
      SearchUsers.execute (fun _ _ => []) ⟨"ali", "user",
          some ⟨some 10, some 0, some true⟩⟩
        = Except.ok ((fun _ _ => ([] : List User)) (jsTrim "ali") so) ∧
      so.includeInactive = some false :=
  searchUsers_forces_includeInactive_false (fun _ _ => []) "ali" "user"
    (some ⟨some 10, some 0, some true⟩) (by decide) (by decide)

/-- **C10.** In `GetUser`, `UpdateUser` and `DeleteUser` the target lookup
precedes the authorization check: when the target id matches no stored user
the operation fails with `'User not found'` for *all* requesters, including
those who would have failed the self-or-admin check; whereas against an
existing target the unauthorized requester gets a different error
(`'You can only update your own profile or you must be an admin'`,
`'You can only delete your own account or you must be an admin'`,
`'This profile is private'`), so a nonexistent account is distinguishable
from an existing one the requester may not touch. -/
theorem lookup_precedes_authorization
    (findById findById2 : String → Option User) (now : Nat) (uid : String)
    (target : User) (rid role : String)
    (hnone : findById uid = none) (hsome : findById2 uid = some target)
    (hrid : rid ≠ uid) (hrole : role ≠ "admin") :
    (∀ r q, GetUser.execute findById ⟨uid, r, q⟩
      = Except.error "User not found") ∧
    (∀ r q pf pr, UpdateUser.execute findById now ⟨uid, r, q, pf, pr⟩
      = Except.error "User not found") ∧
    (∀ r q, DeleteUser.execute findById now ⟨uid, r, q⟩
      = Except.error "User not found") ∧
    (UpdateUser.execute findById2 now ⟨uid, rid, role, none, none⟩
      = Except.error "You can only update your own profile or you must be an admin") ∧
    (DeleteUser.execute findById2 now ⟨uid, rid, role⟩
      = Except.error "You can only delete your own account or you must be an admin") ∧
    (target.preferences.privacy.profileVisibility = "private" →
      GetUser.execute findById2 ⟨uid, rid, role⟩
        = Except.error "This profile is private") ∧
    ("You can only update your own profile or you must be an admin"
        ≠ "User not found" ∧
      "You can only delete your own account or you must be an admin"
        ≠ "User not found" ∧
      "This profile is private" ≠ "User not found") := by
  have hrid' : (rid == uid) = false := beq_eq_false_iff_ne.mpr hrid
  have hrole' : (role == "admin") = false := beq_eq_false_iff_ne.mpr hrole
  refine ⟨?_, ?_, ?_, ?_, ?_, ?_, by decide, by decide, by decide⟩
  · intro r q
    simp [GetUser.execute, hnone]
  · intro r q pf pr
    simp [UpdateUser.execute, hnone]
  · intro r q
    simp [DeleteUser.execute, hnone]
  · simp [UpdateUser.execute, hsome, hrid', hrole']
  · simp [DeleteUser.execute, hsome, hrid', hrole']
  · intro hpriv
    simp [GetUser.execute, hsome, hrid', hrole', hpriv]

/-- Witness for `lookup_precedes_authorization`: an empty store versus a
store holding a private-profile variant of `baseUser`, queried by the
unrelated non-admin requester `"user-9"`. -/
theorem lookup_precedes_authorization_witness :
    (∀ r q, GetUser.execute (fun _ => none) ⟨"user-1", r, q⟩
      = Except.error "User not found") ∧
    (∀ r q pf pr, UpdateUser.execute (fun _ => none) 3 ⟨"user-1", r, q, pf, pr⟩
      = Except.error "User not found") ∧
    (∀ r q, DeleteUser.execute (fun _ => none) 3 ⟨"user-1", r, q⟩
      = Except.error "User not found") ∧
    (UpdateUser.execute
        (fun _ => some { baseUser with preferences :=
          { baseUser.preferences with privacy :=
            { baseUser.preferences.privacy with profileVisibility := "private" } } })
        3 ⟨"user-1", "user-9", "user", none, none⟩
      = Except.error "You can only update your own profile or you must be an admin") ∧
    (DeleteUser.execute
        (fun _ => some { baseUser with preferences :=
          { baseUser.preferences with privacy :=
            { baseUser.preferences.privacy with profileVisibility := "private" } } })
        3 ⟨"user-1", "user-9", "user"⟩
      = Except.error "You can only delete your own account or you must be an admin") ∧
    (({ baseUser with preferences :=
          { baseUser.preferences with privacy :=
            { baseUser.preferences.privacy with profileVisibility := "private" } } }
          : User).preferences.privacy.profileVisibility = "private" →
      GetUser.execute
          (fun _ => some { baseUser with preferences :=
            { baseUser.preferences with privacy :=
              { baseUser.preferences.privacy with profileVisibility := "private" } } })
          ⟨"user-1", "user-9", "user"⟩
        = Except.error "This profile is private") ∧
    ("You can only update your own profile or you must be an admin"
        ≠ "User not found" ∧
      "You can only delete your own account or you must be an admin"
        ≠ "User not found" ∧
      "This profile is private" ≠ "User not found") :=
  lookup_precedes_authorization (fun _ => none)
    (fun _ => some { baseUser with preferences :=
      { baseUser.preferences with privacy :=
        { baseUser.preferences.privacy with profileVisibility := "private" } } })
    3 "user-1"
    { baseUser with preferences :=
      { baseUser.preferences with privacy :=
        { baseUser.preferences.privacy with profileVisibility := "private" } } }
    "user-9" "user" rfl rfl (by decide) (by decide)

end UserService
